import Mathlib

/-!
Shallow embedding of the core logic of `react-piano-visualizer`
(src/src/components/PianoVisualizer.jsx and src/src/components/CanvasVisualizer.js),
together with theorems checking the natural-language specification against it.

JavaScript numbers that hold millisecond timestamps and tick values are modelled
as `ℤ` (all arithmetic in the embedded code stays far below 2^53, where JS
doubles are exact integers).  JavaScript `null`/`undefined` fields are modelled
with `Option`, and JS truthiness (`0`, `null` falsy) is made explicit wherever
the source relies on it.
-/

namespace Piano

/-! Key table generator (PianoVisualizer.jsx lines 11-55) -/

/-- One entry of the 88-key table (source lines 37-43).  The `frequency` field of
the source object is a pure function of `midiNote` (line 42); it is modelled
separately as `Piano.frequency` below so that the table itself stays computable. -/
structure Key where
  id : ℕ
  note : String
  midiNote : ℕ
  isBlack : Bool
deriving DecidableEq, Repr

/-- The `noteNames` array (source lines 13-26): the twelve chromatic note
names in sharp spelling, C through B. -/
def noteNames : List String :=
  let sharpened := fun (s : String) => s ++ "#"
  ["C", sharpened "C", "D", sharpened "D", "E", "F", sharpened "F",
   "G", sharpened "G", "A", sharpened "A", "B"]

/-- Loop body of `generateKeyMapping` (source lines 33-52): `n` iterations left,
`i` the loop counter, then the mutable `midiNote`, `octave`, `noteIndex`. -/
def generateKeyMappingAux : ℕ → ℕ → ℕ → ℕ → ℕ → List Key
  | 0, _, _, _, _ => []
  | n + 1, i, midiNote, octave, noteIndex =>
    let noteName := noteNames.getD noteIndex ""
    let isBlack := noteName.data.contains '#'
    { id := i, note := noteName ++ toString octave, midiNote := midiNote,
      isBlack := isBlack } ::
      (if noteIndex + 1 ≥ 12 then
        generateKeyMappingAux n (i + 1) (midiNote + 1) (octave + 1) 0
      else
        generateKeyMappingAux n (i + 1) (midiNote + 1) octave (noteIndex + 1))

/-- Function `generateKeyMapping` (source lines 11-55): 88 iterations starting at
MIDI note 21, octave 0, note index 9 (the note "A"). -/
def generateKeyMapping : List Key := generateKeyMappingAux 88 0 21 0 9

/-- The frequency computed on source line 42:
`440 * Math.pow(2, (midiNote - 69) / 12)`, as a real number. -/
noncomputable def frequency (midiNote : ℕ) : ℝ :=
  440 * (2 : ℝ) ^ (((midiNote : ℝ) - 69) / 12)

/-! Variable-length quantity encoder (PianoVisualizer.jsx lines 116-127) -/

/-- The `while (value > 0)` loop of `encodeVariableLength` (source lines
121-124), prepending continuation bytes.  `fuel` bounds the iteration count; it
is always called with enough fuel (the loop divides `v` by 128 each round). -/
def encodeVLQAux : ℕ → ℕ → List ℕ → List ℕ
  | 0, _, acc => acc
  | fuel + 1, v, acc =>
    if v = 0 then acc
    else encodeVLQAux fuel (v / 128) (((v % 128) ||| 0x80) :: acc)

/-- Function `encodeVariableLength` (source lines 116-127): push `value & 0x7f`, shift
right by 7, then prepend `(value & 0x7f) | 0x80` while the value is positive. -/
def encodeVariableLength (value : ℕ) : List ℕ :=
  encodeVLQAux value (value >>> 7) [value &&& 0x7f]

/-- Modelled from the spec: the standard MIDI variable-length-quantity decoding
algorithm (7 data bits per byte, big-endian group order) referenced by the spec
sentence "encode(x) decoded by the standard MIDI VLQ decoding algorithm returns
x"; the repository itself contains no decoder. -/
def decodeVLQ (bytes : List ℕ) : ℕ :=
  bytes.foldl (fun acc b => acc * 128 + (b &&& 0x7f)) 0

/-! MIDI file generator (PianoVisualizer.jsx lines 58-114) -/

/-- A recorded note as consumed by `generateMIDIFile` and produced by the
recorder: the spread `{...keyData, startTime, visualNoteId, duration}` built in
`handleKeyRelease` / `toggleRecording`.  `velocity` is `Option` because the
source reads `note.velocity || 64` (absent, and also `0`, fall back to 64). -/
structure RecordedNote where
  keyId : ℕ := 0
  midiNote : ℕ
  velocity : Option ℕ := none
  startTime : ℤ
  duration : ℤ
  visualNoteId : Option ℕ := none
deriving DecidableEq, Repr

/-- JS `note.velocity || 64` (source line 72): `undefined` and `0` give 64. -/
def jsOr64 : Option ℕ → ℕ
  | none => 64
  | some 0 => 64
  | some v => v

/-- JS `Math.round((ms * 480) / 1000)` (source lines 67-68).  JS `Math.round x`
is `⌊x + 1/2⌋`; with `x = ms*480/1000` this is `⌊(ms*480 + 500) / 1000⌋`,
i.e. floor division. -/
def midiTick (ms : ℤ) : ℤ := Int.fdiv (ms * 480 + 500) 1000

/-- One timed event pushed onto `events` (source lines 70-78). -/
structure MidiEvent where
  time : ℤ
  data : List ℕ
deriving DecidableEq, Repr

/-- The two events derived from one note (source lines 66-79): note-on at the
rounded start tick, note-off at rounded start tick + rounded duration tick. -/
def noteEvents (n : RecordedNote) : List MidiEvent :=
  let startTime := midiTick n.startTime
  let duration := midiTick n.duration
  [{ time := startTime, data := [0x90, n.midiNote, jsOr64 n.velocity] },
   { time := startTime + duration, data := [0x80, n.midiNote, 0] }]

/-- The full event list accumulated by `notes.forEach` (source lines 65-79). -/
def midiEvents (notes : List RecordedNote) : List MidiEvent :=
  notes.flatMap noteEvents

/-- JS `events.sort((a, b) => a.time - b.time)` (source line 81).  JS `Array.sort`
is a stable ascending sort with this comparator; insertion sort is stable. -/
def sortedEvents (notes : List RecordedNote) : List MidiEvent :=
  (midiEvents notes).insertionSort (fun a b => a.time ≤ b.time)

/-- The list of `deltaTime` values computed by the `events.forEach` fold
(source lines 86-91), i.e. the successive arguments of
`encodeVariableLength`, starting from `currentTime = 0`. -/
def deltaTimesAux : ℤ → List MidiEvent → List ℤ
  | _, [] => []
  | currentTime, e :: rest => (e.time - currentTime) :: deltaTimesAux e.time rest

/-- The `trackData` fold (source lines 83-91): for each event emit the
variable-length-encoded delta time followed by the raw event bytes.  The
arguments fed to the encoder are exactly `deltaTimesAux 0 events`. -/
def trackDataAux : ℤ → List MidiEvent → List ℕ
  | _, [] => []
  | currentTime, e :: rest =>
    encodeVariableLength (e.time - currentTime).toNat ++ e.data ++
      trackDataAux e.time rest

/-- Array `trackData` after the loop plus the end-of-track meta event pushed on
source line 93. -/
def trackData (notes : List RecordedNote) : List ℕ :=
  trackDataAux 0 (sortedEvents notes) ++ [0x00, 0xff, 0x2f, 0x00]

/-- The fixed 14-byte header chunk (source lines 60-63). -/
def header : List ℕ :=
  [0x4d, 0x54, 0x68, 0x64, 0x00, 0x00, 0x00, 0x06, 0x00, 0x00, 0x00, 0x01,
   0x01, 0xe0]

/-- The `MTrk` chunk header (source lines 95-104) with the big-endian 32-bit
track length. -/
def trackHeader (len : ℕ) : List ℕ :=
  [0x4d, 0x54, 0x72, 0x6b,
   (len >>> 24) &&& 0xff, (len >>> 16) &&& 0xff, (len >>> 8) &&& 0xff,
   len &&& 0xff]

/-- Function `generateMIDIFile` (source lines 58-114): header chunk, track chunk header,
track bytes. -/
def generateMIDIFile (notes : List RecordedNote) : List ℕ :=
  header ++ trackHeader (trackData notes).length ++ trackData notes

/-! Visual notes (PianoVisualizer.jsx lines 466-528, CanvasVisualizer.js) -/

/-- A visual note as stored in the `visualNotes` state (source lines 503-513);
geometry and color fields are omitted (pure rendering data).  `duration = none`
models JS `null` ("still growing"). -/
structure VisualNote where
  id : ℕ
  keyId : ℕ
  startTime : ℤ
  duration : Option ℤ
deriving DecidableEq, Repr

/-- JS truthiness of a number-or-null field: `null` and `0` are falsy. -/
def jsTruthyInt : Option ℤ → Bool
  | none => false
  | some d => d ≠ 0

/-- JS truthiness of the `visualNoteId` field. -/
def jsTruthyNat : Option ℕ → Bool
  | none => false
  | some v => v ≠ 0

/-- The periodic cleanup filter inside the animation loop
(PianoVisualizer.jsx lines 193-205): a note is dropped when
`note.duration && elapsed > 3500`. -/
def animationCleanup (currentTime : ℤ) (notes : List VisualNote) :
    List VisualNote :=
  notes.filter fun note =>
    !(jsTruthyInt note.duration && decide (currentTime - note.startTime > 3500))

/-- Method `CanvasVisualizer.cleanup` (CanvasVisualizer.js lines 169-177): if
`note.duration` is truthy, keep it while `elapsed <= 3500`; otherwise keep. -/
def canvasCleanup (currentTime : ℤ) (notes : List VisualNote) :
    List VisualNote :=
  notes.filter fun note =>
    if jsTruthyInt note.duration then
      decide (currentTime - note.startTime ≤ 3500)
    else true

/-! Recorder state machine (PianoVisualizer.jsx lines 129-152, 529-680) -/

/-- The key data handed to `handleKeyPress`/`handleKeyRelease`: an entry of the
key table, optionally extended with a MIDI `velocity` (as in
`handleKeyPress({...keyData, velocity})`, source line 618). -/
structure KeyData where
  id : ℕ
  midiNote : ℕ
  velocity : Option ℕ := none
deriving DecidableEq, Repr

/-- An in-flight note of the `activeNotes` map: the spread
`{...keyData, startTime, visualNoteId}` (source line 551). -/
structure ActiveNote where
  keyId : ℕ
  midiNote : ℕ
  velocity : Option ℕ
  startTime : ℤ
  visualNoteId : Option ℕ
deriving DecidableEq, Repr

/-- Promotion of an ActiveNote to a RecordedNote with the given clamped
duration: the spread `{...noteData, duration}` (source lines 577-583). -/
def promote (nd : ActiveNote) (duration : ℤ) : RecordedNote :=
  { keyId := nd.keyId, midiNote := nd.midiNote, velocity := nd.velocity,
    startTime := nd.startTime, duration := duration,
    visualNoteId := nd.visualNoteId }

/-- JS `Map.prototype.get` on an association list with unique keys. -/
def mapGet (m : List (ℕ × ActiveNote)) (k : ℕ) : Option ActiveNote :=
  (m.find? fun p => p.1 == k).map (·.2)

/-- JS `new Map([...prev, [k, v]])` (source lines 547-553): an existing key is
overwritten in place, a new key is appended. -/
def mapSet (m : List (ℕ × ActiveNote)) (k : ℕ) (v : ActiveNote) :
    List (ℕ × ActiveNote) :=
  if m.any (fun p => p.1 == k) then
    m.map fun p => if p.1 = k then (k, v) else p
  else m ++ [(k, v)]

/-- JS `Map.prototype.delete` (source lines 585-589). -/
def mapDelete (m : List (ℕ × ActiveNote)) (k : ℕ) : List (ℕ × ActiveNote) :=
  m.filter fun p => p.1 ≠ k

/-- The component state touched by the recorder logic, plus a log of the
`playSound` emissions so that "no sound" is observable.  React `useState`
fields of PianoVisualizer (source lines 130-152). -/
structure RecorderState where
  pressedKeys : List ℕ
  isRecording : Bool
  recordingStartTime : Option ℤ
  activeNotes : List (ℕ × ActiveNote)
  recordedNotes : List RecordedNote
  visualNotes : List VisualNote
  noteIdCounter : ℕ
  lastVisualNoteTime : List (ℕ × ℤ)
  lastSoundTime : List ((ℕ × ℕ) × ℤ)
  sounds : List ℕ
deriving DecidableEq, Repr

/-- The initial component state. -/
def initialState : RecorderState :=
  { pressedKeys := [], isRecording := false, recordingStartTime := none,
    activeNotes := [], recordedNotes := [], visualNotes := [],
    noteIdCounter := 0, lastVisualNoteTime := [], lastSoundTime := [],
    sounds := [] }

/-- Function `playSound` (source lines 342-465) restricted to its state effect: the
50 ms per-(midiNote, velocity) throttle (lines 353-361), then a tone is
emitted (logged here); the sample-loading machinery is audio-output only. -/
def playSound (st : RecorderState) (midiNote velocity : ℕ) (now : ℤ) :
    RecorderState :=
  let lastPress :=
    ((st.lastSoundTime.find? fun p => p.1 == (midiNote, velocity)).map
      (·.2)).getD 0
  if now - lastPress < 50 then st
  else
    { st with
      lastSoundTime :=
        ((midiNote, velocity), now) ::
          st.lastSoundTime.filter fun p => p.1 ≠ (midiNote, velocity),
      sounds := st.sounds ++ [midiNote] }

/-- Function `createVisualNote` (source lines 467-519): a 30 ms per-key throttle when
called without a duration, then a fresh id, and a visual note whose stored
duration is `duration || null` (line 511: a passed `0` becomes `null`). -/
def createVisualNote (st : RecorderState) (key : KeyData) (now : ℤ)
    (duration : Option ℤ) : RecorderState × Option ℕ :=
  let lastNoteTime :=
    ((st.lastVisualNoteTime.find? fun p => p.1 == key.id).map (·.2)).getD 0
  if now - lastNoteTime < 30 ∧ jsTruthyInt duration = false then (st, none)
  else
    let noteId := st.noteIdCounter + 1
    ({ st with
        lastVisualNoteTime :=
          (key.id, now) :: st.lastVisualNoteTime.filter fun p => p.1 ≠ key.id,
        noteIdCounter := noteId,
        visualNotes := st.visualNotes ++
          [{ id := noteId, keyId := key.id, startTime := now,
             duration := if jsTruthyInt duration then duration else none }] },
      some noteId)

/-- Function `endVisualNote` (source lines 522-528): fix the duration of the visual
note with the given id (the raw value, including `0`, is stored). -/
def endVisualNote (st : RecorderState) (noteId : ℕ) (duration : ℤ) :
    RecorderState :=
  { st with
    visualNotes := st.visualNotes.map fun n =>
      if n.id = noteId then { n with duration := some duration } else n }

/-- Function `handleKeyPress` (source lines 530-557): no-op when the key is already in
the pressed set; otherwise add it, play a sound, create a visual note, and —
while recording — register an ActiveNote at `startTime = now - epoch`
(setting the epoch first if the ref is still null, lines 541-544). -/
def handleKeyPress (st : RecorderState) (key : KeyData) (now : ℤ) :
    RecorderState :=
  if st.pressedKeys.contains key.id then st
  else
    let st1 := { st with pressedKeys := st.pressedKeys ++ [key.id] }
    let velocity := jsOr64 key.velocity
    let st2 := playSound st1 key.midiNote velocity now
    let (st3, noteId) := createVisualNote st2 key now none
    if st3.isRecording then
      let epoch := st3.recordingStartTime.getD now
      let startTime := now - epoch
      { st3 with
        recordingStartTime := some epoch,
        activeNotes := mapSet st3.activeNotes key.id
          { keyId := key.id, midiNote := key.midiNote,
            velocity := key.velocity, startTime := startTime,
            visualNoteId := noteId } }
    else st3

/-- The `else` branch of `handleKeyRelease` (source lines 590-598): end every
visual note of this key that has no truthy duration yet, with
`duration = now - note.startTime`. -/
def releaseVisualNotes (st : RecorderState) (keyId : ℕ) (now : ℤ) :
    RecorderState :=
  (st.visualNotes.filter fun n =>
      n.keyId == keyId && !(jsTruthyInt n.duration)).foldl
    (fun s n => endVisualNote s n.id (now - n.startTime)) st

/-- Function `handleKeyRelease` (source lines 560-601): drop the key from the pressed
set; while recording with an ActiveNote for the key, promote it to a
RecordedNote with `duration = max(now - epoch - startTime, 100)` and remove
it; otherwise close the key's visual notes.  The JS reads
`Date.now() - recordingStartTimeRef.current`, where a null ref coerces to 0,
modelled by `getD 0`. -/
def handleKeyRelease (st : RecorderState) (key : KeyData) (now : ℤ) :
    RecorderState :=
  let st0 := { st with pressedKeys := st.pressedKeys.filter (· ≠ key.id) }
  if st0.isRecording then
    match mapGet st0.activeNotes key.id with
    | some noteData =>
      let endTime := now - st0.recordingStartTime.getD 0
      let duration := endTime - noteData.startTime
      let st1 :=
        match noteData.visualNoteId with
        | some vid => if vid ≠ 0 then endVisualNote st0 vid duration else st0
        | none => st0
      let st2 := { st1 with
        recordedNotes := st1.recordedNotes ++ [promote noteData (max duration 100)] }
      { st2 with activeNotes := mapDelete st2.activeNotes key.id }
    | none => releaseVisualNotes st0 key.id now
  else releaseVisualNotes st0 key.id now

/-- Function `toggleRecording` (source lines 657-680).  Stopping sets the state to
not-recording, **nulls the epoch ref (line 661), and only then** flushes every
remaining ActiveNote computing `endTime = Date.now() - ref.current` with the
already-nulled ref (line 663, `null` coercing to 0), then empties the map.
Starting clears the note buffer and sets the epoch to now. -/
def toggleRecording (st : RecorderState) (now : ℤ) : RecorderState :=
  if st.isRecording then
    let st1 := { st with isRecording := false, recordingStartTime := none }
    let flushed := st1.activeNotes.map fun p =>
      let endTime := now - st1.recordingStartTime.getD 0
      let duration := endTime - p.2.startTime
      promote p.2 (max duration 100)
    { st1 with recordedNotes := st1.recordedNotes ++ flushed, activeNotes := [] }
  else
    { st with
      isRecording := true, recordedNotes := [],
      recordingStartTime := some now }

/-! Replay scheduler (PianoVisualizer.jsx lines 683-734) -/

/-- A simulated input event fired by the replay timers. -/
inductive ReplayAction where
  | press (keyId : ℕ)
  | release (keyId : ℕ)
deriving DecidableEq, Repr

/-- The (relative time, action) pairs scheduled by `replayRecording` (source
lines 691-723): for each note a press timer at `note.startTime` and a release
timer at `note.startTime + note.duration`. -/
def replaySchedule (notes : List RecordedNote) : List (ℤ × ReplayAction) :=
  notes.flatMap fun n =>
    [(n.startTime, ReplayAction.press n.keyId),
     (n.startTime + n.duration, ReplayAction.release n.keyId)]

/-- The timer that re-enters the idle state (source lines 726-731):
`Math.max` of `startTime + duration` over the notes, plus 100 ms
(`none` for an empty list, which the function rejects before scheduling). -/
def replayStopTime (notes : List RecordedNote) : Option ℤ :=
  ((notes.map fun n => n.startTime + n.duration).max?).map (· + 100)

/-! Concrete inputs used by the theorems below -/

/-- The single note of the spec's MIDI round-trip test:
`{midiNote:60, velocity:64, startTime:0, duration:500}`. -/
def exNote : RecordedNote :=
  { midiNote := 60, velocity := some 64, startTime := 0, duration := 500 }

/-- A note whose start and duration both round down individually
(1 ms ↦ tick 0) while their sum rounds up (2 ms ↦ tick 1). -/
def exNoteOneMs : RecordedNote :=
  { midiNote := 60, velocity := some 64, startTime := 1, duration := 1 }

/-- Modelled from the spec: the 14-byte header chunk the claim asserts, with
format field 1 (`MThd`, length 6, format 1, 1 track, division 480). -/
def specHeaderFormat1 : List ℕ :=
  [0x4d, 0x54, 0x68, 0x64, 0x00, 0x00, 0x00, 0x06, 0x00, 0x01, 0x00, 0x01,
   0x01, 0xe0]

/-! Theorems for the claims -/

/-- C1, counterexample: the claim says the note-off lands at tick
`round((startTime + duration) * 480/1000)`.  For the note with
`startTime = 1 ms`, `duration = 1 ms`, the code derives both events at tick 0
(it rounds start and duration separately and adds), while the claimed tick is
`round(2 * 480/1000) = 1`; no derived event carries that tick. -/
theorem claim_C1_counterexample :
    midiEvents [exNoteOneMs] =
      [{ time := 0, data := [0x90, 60, 64] }, { time := 0, data := [0x80, 60, 0] }] ∧
    midiTick (1 + 1) = 1 ∧
    ¬ ∃ e ∈ midiEvents [exNoteOneMs], e.time = midiTick (1 + 1) := by
  decide

/-- C1, amended: for every recorded note, `generateMIDIFile` derives exactly two
timed events — a note-on (status 0x90, pitch `midiNote`, velocity
`note.velocity or 64`) at tick `round(startTime*480/1000)` and a note-off
(status 0x80, same pitch, velocity 0) at tick
`round(startTime*480/1000) + round(duration*480/1000)` — and the single note
`{midiNote:60, velocity:64, startTime:0, duration:500}` produces a track with
the note-on at tick 0 (delta time the single byte 0x00) and the note-off at
tick 240 (delta time the bytes 0x81 0x70). -/
theorem claim_C1_two_events_per_note :
    (∀ notes : List RecordedNote,
      midiEvents notes = notes.flatMap fun n =>
        [{ time := midiTick n.startTime,
           data := [0x90, n.midiNote, jsOr64 n.velocity] },
         { time := midiTick n.startTime + midiTick n.duration,
           data := [0x80, n.midiNote, 0] }]) ∧
    trackData [exNote] =
      [0x00, 0x90, 60, 64, 0x81, 0x70, 0x80, 60, 0, 0x00, 0xff, 0x2f, 0x00] ∧
    midiTick 0 = 0 ∧ midiTick 500 = 240 ∧
    encodeVariableLength 0 = [0x00] ∧
    encodeVariableLength 240 = [0x81, 0x70] := by
  exact ⟨fun notes => rfl, by decide⟩

/-- C2: for each x in {0, 127, 128, 16383, 16384, 2097151}, decoding the bytes
produced by `encodeVariableLength x` with the standard MIDI VLQ decoding
algorithm returns x. -/
theorem claim_C2_vlq_roundtrip :
    decodeVLQ (encodeVariableLength 0) = 0 ∧
    decodeVLQ (encodeVariableLength 127) = 127 ∧
    decodeVLQ (encodeVariableLength 128) = 128 ∧
    decodeVLQ (encodeVariableLength 16383) = 16383 ∧
    decodeVLQ (encodeVariableLength 16384) = 16384 ∧
    decodeVLQ (encodeVariableLength 2097151) = 2097151 := by
  decide

/-- C3, counterexample: the claim asserts the 14-byte header declares format 1,
but the header `generateMIDIFile` emits carries `0x00 0x00` (format 0) in
bytes 8-9. -/
theorem claim_C3_counterexample :
    (generateMIDIFile []).take 14 ≠ specHeaderFormat1 ∧
    ((generateMIDIFile []).drop 8).take 2 = [0x00, 0x00] := by
  decide

/-- C3, amended: `generateMIDIFile []` is a structurally valid Standard MIDI
File with a fixed 14-byte `MThd` header of length 6, **format 0**, track count
1, division 480, followed by an `MTrk` chunk whose big-endian length field
equals the track byte length (4) and whose body is exactly the end-of-track
meta event `0x00 0xFF 0x2F 0x00`. -/
theorem claim_C3_empty_file :
    generateMIDIFile [] =
      [0x4d, 0x54, 0x68, 0x64, 0x00, 0x00, 0x00, 0x06, 0x00, 0x00, 0x00, 0x01,
       0x01, 0xe0,
       0x4d, 0x54, 0x72, 0x6b, 0x00, 0x00, 0x00, 0x04,
       0x00, 0xff, 0x2f, 0x00] ∧
    trackData [] = [0x00, 0xff, 0x2f, 0x00] ∧
    (trackData []).length = 4 ∧
    trackHeader (trackData []).length = [0x4d, 0x54, 0x72, 0x6b, 0, 0, 0, 4] := by
  decide

/-- A recording in progress with one held note: epoch 1000, the note on key 5
pressed 200 ms into the recording (relative `startTime = 200`). -/
def stStopBug : RecorderState :=
  { initialState with
    pressedKeys := [5], isRecording := true, recordingStartTime := some 1000,
    activeNotes := [(5, { keyId := 5, midiNote := 60, velocity := none,
                          startTime := 200, visualNoteId := none })] }

/-- C4: stopping at wall-clock time `now = 1500` should flush the held note
with `duration = max(now - epoch - startTime, 100) = max(1500-1000-200, 100)
= 300`.  Because `toggleRecording` nulls the epoch ref before reading it, the
code computes `endTime = now - 0` and flushes `duration = 1300` instead (in
real runs, `Date.now()` minus a sub-hour offset, i.e. decades of
milliseconds).  The recorder does exit recording mode with an empty
ActiveNote map. -/
theorem claim_C4_stop_flush_bug :
    (toggleRecording stStopBug 1500).recordedNotes.map (·.duration) = [1300] ∧
    (toggleRecording stStopBug 1500).isRecording = false ∧
    (toggleRecording stStopBug 1500).activeNotes = [] ∧
    max (1500 - 1000 - 200 : ℤ) 100 = 300 ∧
    (1300 : ℤ) ≠ 300 := by
  decide

/-- Deleting a key from the active-note map makes lookups of that key fail. -/
theorem mapGet_mapDelete (m : List (ℕ × ActiveNote)) (k : ℕ) :
    mapGet (mapDelete m k) k = none := by
  have h : (mapDelete m k).find? (fun p => p.1 == k) = none := by
    rw [List.find?_eq_none]
    intro p hp
    have := (List.mem_filter.1 hp).2
    simpa using this
  simp [mapGet, h]

/-- The key/test fixture shared by the recorder scenarios: key 3, MIDI note 60,
pressed and released through the real handlers after a recording started at
wall-clock 1000. -/
def kTest : KeyData := { id := 3, midiNote := 60 }

/-- The state right after pressing Record at wall-clock time 1000. -/
def startedState : RecorderState := toggleRecording initialState 1000

/-- C5: while recording with an ActiveNote for the key, releasing appends a
RecordedNote with `duration = max(now - epoch - startTime, 100)` and removes
the ActiveNote; concretely, a key held for 40 ms records duration 100 and one
held for 250 ms records duration 250. -/
theorem claim_C5_release_duration :
    (∀ (st : RecorderState) (key : KeyData) (now epoch : ℤ) (nd : ActiveNote),
      st.isRecording = true →
      st.recordingStartTime = some epoch →
      mapGet st.activeNotes key.id = some nd →
      (handleKeyRelease st key now).recordedNotes =
        st.recordedNotes ++ [promote nd (max (now - epoch - nd.startTime) 100)] ∧
      mapGet (handleKeyRelease st key now).activeNotes key.id = none) ∧
    (handleKeyRelease (handleKeyPress startedState kTest 1000) kTest 1040).recordedNotes.map
      (·.duration) = [100] ∧
    (handleKeyRelease (handleKeyPress startedState kTest 1000) kTest 1250).recordedNotes.map
      (·.duration) = [250] := by
  refine ⟨?_, by decide, by decide⟩
  intro st key now epoch nd h1 h2 h3
  unfold handleKeyRelease
  simp only [h1, if_true]
  rw [h3]
  cases hvid : nd.visualNoteId with
  | none =>
    simp [hvid, h2, mapGet_mapDelete, endVisualNote]
  | some vid =>
    by_cases hz : vid = 0 <;>
      simp [hvid, hz, h2, mapGet_mapDelete, endVisualNote]

/-- C5, witness instantiation data: the state used to apply the general part
of the release theorem. -/
def stWitness : RecorderState :=
  { initialState with
    pressedKeys := [3], isRecording := true, recordingStartTime := some 1000,
    activeNotes := [(3, { keyId := 3, midiNote := 60, velocity := none,
                          startTime := 0, visualNoteId := none })] }

/-- C5 witness: the general release theorem applied at a concrete recording
state with epoch 1000, a note held from relative time 0, released at 1040. -/
theorem claim_C5_witness :
    (handleKeyRelease stWitness kTest 1040).recordedNotes =
      stWitness.recordedNotes ++
        [promote { keyId := 3, midiNote := 60, velocity := none,
                   startTime := 0, visualNoteId := none }
          (max (1040 - 1000 - 0) 100)] ∧
    mapGet (handleKeyRelease stWitness kTest 1040).activeNotes kTest.id = none :=
  claim_C5_release_duration.1 stWitness kTest 1040 1000
    { keyId := 3, midiNote := 60, velocity := none, startTime := 0,
      visualNoteId := none } (by decide) (by decide) (by decide)

/-- C6: pressing a key that is already in the pressed-key set is a no-op (the
whole state — sounds, visual notes, active notes — is unchanged), so a double
press produces exactly one ActiveNote and, after release, exactly one
RecordedNote. -/
theorem claim_C6_repress_noop :
    (∀ (st : RecorderState) (key : KeyData) (now : ℤ),
      st.pressedKeys.contains key.id = true → handleKeyPress st key now = st) ∧
    handleKeyPress (handleKeyPress startedState kTest 1000) kTest 1005 =
      handleKeyPress startedState kTest 1000 ∧
    ((handleKeyPress (handleKeyPress startedState kTest 1000) kTest 1005).activeNotes.filter
      (fun p => p.1 == kTest.id)).length = 1 ∧
    ((handleKeyRelease
        (handleKeyPress (handleKeyPress startedState kTest 1000) kTest 1005)
        kTest 1250).recordedNotes.filter
      (fun r => r.keyId == kTest.id)).length = 1 := by
  refine ⟨?_, by decide, by decide, by decide⟩
  intro st key now h
  unfold handleKeyPress
  rw [if_pos h]

/-- C6, witness instantiation data: a state in which key 9 is already held. -/
def stPressed : RecorderState := { initialState with pressedKeys := [9] }

/-- C6 witness: the no-op part applied to a state already holding key 9. -/
theorem claim_C6_witness :
    handleKeyPress stPressed { id := 9, midiNote := 30 } 7 = stPressed :=
  claim_C6_repress_noop.1 stPressed { id := 9, midiNote := 30 } 7 (by decide)

/-- A visual note released in the same millisecond it started: its duration is
set (not null) but equal to 0, which is falsy in JS. -/
def vnZero : VisualNote := { id := 1, keyId := 0, startTime := 0, duration := some 0 }

/-- A released visual note with a 100 ms duration, used to instantiate the
cleanup theorem. -/
def vnHundred : VisualNote := { id := 2, keyId := 0, startTime := 0, duration := some 100 }

/-- C7, counterexample: the claim says a note whose duration is set is removed
once elapsed time exceeds 3500 ms.  A note whose duration was set to 0 is
falsy in the `note.duration &&` / `if (note.duration)` guards, so both cleanup
sweeps keep it forever — here at elapsed 3600 ms. -/
theorem claim_C7_counterexample :
    animationCleanup 3600 [vnZero] = [vnZero] ∧
    canvasCleanup 3600 [vnZero] = [vnZero] ∧
    vnZero.duration = some 0 ∧
    (3600 : ℤ) - vnZero.startTime > 3500 := by
  decide

/-- C7, amended: the cleanup sweeps never remove a visual note whose duration
is null; a note whose duration is set to a nonzero value is removed exactly
when elapsed time since its start exceeds the 3500 ms animation budget, and
never before (a duration set to 0 behaves like null and is never removed,
per the counterexample). -/
theorem claim_C7_cleanup :
    ∀ (t : ℤ) (notes : List VisualNote) (note : VisualNote), note ∈ notes →
      (note.duration = none →
        note ∈ animationCleanup t notes ∧ note ∈ canvasCleanup t notes) ∧
      (∀ d : ℤ, note.duration = some d → d ≠ 0 →
        ((note ∉ animationCleanup t notes ↔ t - note.startTime > 3500) ∧
         (note ∉ canvasCleanup t notes ↔ t - note.startTime > 3500))) := by
  intro t notes note hmem
  constructor
  · intro hnone
    constructor <;>
      simp [animationCleanup, canvasCleanup, List.mem_filter, hmem, hnone,
        jsTruthyInt]
  · intro d hd hdz
    constructor <;>
      · simp [animationCleanup, canvasCleanup, List.mem_filter, hmem, hd,
          jsTruthyInt, hdz]
        omega

/-- C7 witness: the amended cleanup theorem applied to a single released note
with duration 100 at sweep time 4000 (elapsed 4000 > 3500: removed). -/
theorem claim_C7_witness :
    (vnHundred ∉ animationCleanup 4000 [vnHundred] ↔
      (4000 : ℤ) - vnHundred.startTime > 3500) ∧
    (vnHundred ∉ canvasCleanup 4000 [vnHundred] ↔
      (4000 : ℤ) - vnHundred.startTime > 3500) :=
  (claim_C7_cleanup 4000 [vnHundred] vnHundred (by decide)).2 100 (by decide)
    (by decide)

/-- The replay fixture of the spec:
`[{startTime:0, duration:200}, {startTime:500, duration:100}]`. -/
def replayNotes : List RecordedNote :=
  [{ keyId := 1, midiNote := 60, startTime := 0, duration := 200 },
   { keyId := 2, midiNote := 64, startTime := 500, duration := 100 }]

/-- C8: replaying `[{startTime:0,duration:200},{startTime:500,duration:100}]`
schedules presses at relative times 0 and 500, releases at 200 and 600, and
the idle-state timer fires at 700 ≥ 600. -/
theorem claim_C8_replay_schedule :
    replaySchedule replayNotes =
      [(0, ReplayAction.press 1), (200, ReplayAction.release 1),
       (500, ReplayAction.press 2), (600, ReplayAction.release 2)] ∧
    (replaySchedule replayNotes).filterMap
      (fun p => match p.2 with
        | ReplayAction.press _ => some p.1
        | ReplayAction.release _ => none) = [0, 500] ∧
    (replaySchedule replayNotes).filterMap
      (fun p => match p.2 with
        | ReplayAction.press _ => none
        | ReplayAction.release _ => some p.1) = [200, 600] ∧
    replayStopTime replayNotes = some 700 ∧ (600 : ℤ) ≤ 700 := by
  decide

/-- C9: the key table has exactly 88 entries in ascending chromatic order from
A0 (MIDI 21) to C8 (MIDI 108); `isBlack` holds exactly for names containing a
sharp; the frequency function satisfies `frequency 69 = 440` and is strictly
increasing in the MIDI note. -/
theorem claim_C9_key_table :
    generateKeyMapping.length = 88 ∧
    generateKeyMapping.head? =
      some { id := 0, note := "A0", midiNote := 21, isBlack := false } ∧
    generateKeyMapping.getLast? =
      some { id := 87, note := "C8", midiNote := 108, isBlack := false } ∧
    generateKeyMapping.map (·.midiNote) = List.range' 21 88 ∧
    (∀ k ∈ generateKeyMapping, k.isBlack = k.note.data.contains '#') ∧
    frequency 69 = 440 ∧
    (∀ a b : ℕ, a < b → frequency a < frequency b) := by
  refine ⟨by decide, by decide, by decide, by decide, by decide, ?_, ?_⟩
  · have h0 : (((69 : ℕ) : ℝ) - 69) / 12 = 0 := by norm_num
    rw [frequency, h0, Real.rpow_zero, mul_one]
  · intro a b hab
    have hcast : (a : ℝ) < (b : ℝ) := by exact_mod_cast hab
    have hexp : ((a : ℝ) - 69) / 12 < ((b : ℝ) - 69) / 12 := by
      apply div_lt_div_of_pos_right (sub_lt_sub_right hcast 69)
      norm_num
    exact mul_lt_mul_of_pos_left
      (Real.rpow_lt_rpow_of_exponent_lt one_lt_two hexp) (by norm_num)

/-- C9 witness: the hypothesis-bearing parts of the key-table theorem at
concrete inputs — the first key's `isBlack` agreement and strict frequency
growth from A0 to A#0. -/
theorem claim_C9_witness :
    (Key.isBlack { id := 0, note := "A0", midiNote := 21, isBlack := false } =
      (Key.note { id := 0, note := "A0", midiNote := 21, isBlack := false }).data.contains '#') ∧
    frequency 21 < frequency 22 :=
  ⟨claim_C9_key_table.2.2.2.2.1
      { id := 0, note := "A0", midiNote := 21, isBlack := false } (by decide),
   claim_C9_key_table.2.2.2.2.2.2 21 22 (by decide)⟩

instance : IsTotal MidiEvent fun a b => a.time ≤ b.time :=
  ⟨fun a b => le_total a.time b.time⟩

instance : IsTrans MidiEvent fun a b => a.time ≤ b.time :=
  ⟨fun _ _ _ hab hbc => le_trans hab hbc⟩

/-- Floor division of non-negative integers is non-negative. -/
theorem fdiv_nonneg_of_nonneg {a b : ℤ} (ha : 0 ≤ a) (hb : 0 ≤ b) :
    0 ≤ a.fdiv b := by
  obtain ⟨m, rfl⟩ := Int.eq_ofNat_of_zero_le ha
  obtain ⟨n, rfl⟩ := Int.eq_ofNat_of_zero_le hb
  exact Int.fdiv_nonneg (Int.ofNat_nonneg m) (Int.ofNat_nonneg n)

/-- Rounding a non-negative millisecond offset to ticks is non-negative. -/
theorem midiTick_nonneg {ms : ℤ} (h : 0 ≤ ms) : 0 ≤ midiTick ms :=
  fdiv_nonneg_of_nonneg
    (add_nonneg (mul_nonneg h (by norm_num)) (by norm_num)) (by norm_num)

/-- All event ticks derived from notes with non-negative start and duration
are non-negative. -/
theorem midiEvents_time_nonneg {notes : List RecordedNote}
    (h : ∀ n ∈ notes, 0 ≤ n.startTime ∧ 0 ≤ n.duration) :
    ∀ e ∈ midiEvents notes, 0 ≤ e.time := by
  intro e he
  rw [midiEvents, List.mem_flatMap] at he
  obtain ⟨n, hn, hev⟩ := he
  obtain ⟨hs, hd⟩ := h n hn
  simp only [noteEvents, List.mem_cons, List.mem_singleton,
    List.not_mem_nil, or_false] at hev
  rcases hev with rfl | rfl
  · exact midiTick_nonneg hs
  · exact add_nonneg (midiTick_nonneg hs) (midiTick_nonneg hd)

/-- Along a sorted event list, the running-time fold only produces
non-negative deltas once the accumulator is below every event time. -/
theorem deltaTimesAux_nonneg :
    ∀ (evs : List MidiEvent) (cur : ℤ),
      List.Pairwise (fun a b : MidiEvent => a.time ≤ b.time) evs →
      (∀ e ∈ evs, cur ≤ e.time) →
      ∀ d ∈ deltaTimesAux cur evs, 0 ≤ d := by
  intro evs
  induction evs with
  | nil =>
    intro cur _ _ d hd
    simp [deltaTimesAux] at hd
  | cons e rest ih =>
    intro cur hpair hcur d hd
    rw [deltaTimesAux] at hd
    obtain ⟨hhead, htail⟩ := List.pairwise_cons.1 hpair
    rcases List.mem_cons.1 hd with rfl | hd2
    · have := hcur e (List.mem_cons_self e rest)
      omega
    · exact ih e.time htail (fun e2 he2 => hhead e2 he2) d hd2

/-- C10: for every note list with non-negative start times and durations, each
`deltaTime` that the `generateMIDIFile` fold passes to `encodeVariableLength`
is non-negative: the sort by ascending tick keeps the running `currentTime`
at or below the next event's tick. -/
theorem claim_C10_deltas_nonneg :
    ∀ notes : List RecordedNote,
      (∀ n ∈ notes, 0 ≤ n.startTime ∧ 0 ≤ n.duration) →
      ∀ d ∈ deltaTimesAux 0 (sortedEvents notes), 0 ≤ d := by
  intro notes h d hd
  have hsorted :
      List.Pairwise (fun a b : MidiEvent => a.time ≤ b.time)
        (sortedEvents notes) :=
    List.sorted_insertionSort (fun a b : MidiEvent => a.time ≤ b.time)
      (midiEvents notes)
  have htimes : ∀ e ∈ sortedEvents notes, 0 ≤ e.time := by
    intro e he
    rw [sortedEvents] at he
    exact midiEvents_time_nonneg h e
      ((List.mem_insertionSort (fun a b : MidiEvent => a.time ≤ b.time)).1 he)
  exact deltaTimesAux_nonneg (sortedEvents notes) 0 hsorted htimes d hd

/-- C10 witness: on the single-note example the encoder deltas are `[0, 240]`;
the theorem applied at delta 240 gives its non-negativity. -/
theorem claim_C10_witness :
    240 ∈ deltaTimesAux 0 (sortedEvents [exNote]) ∧ (0 : ℤ) ≤ 240 :=
  ⟨by decide, claim_C10_deltas_nonneg [exNote] (by decide) 240 (by decide)⟩

end Piano
